import Mathlib

/-!
Verification of the AppSec-Gym solution-validation engine
(`src/cli/src/core/securityValidator.js`) and the challenge attempt
state machine (`src/cli/src/core/challengeManager.js`).

Shallow embedding conventions:
* Scores are modelled in `ℚ`.  All the fractional constants the source
  multiplies (`60 * 0.7`, `25 * 0.5`, `15 * 0.8`) produce exactly the
  rationals `42`, `12.5` and `12` under IEEE-754 double arithmetic, so
  the rational model agrees with the JavaScript number semantics on
  every value the program can compute.
* The JavaScript regex engine is external to the modelled code.  A
  submitted source text is abstracted by its `MatchProfile`: for each
  pattern of the selected rule set, in registry order, the number of
  non-overlapping matches that `content.match(pattern)` finds
  (`0` corresponds to a `null` match result).
* The alias table in `mapCategoryToRules` is a plain JavaScript object
  literal, so its bracket lookup walks the prototype chain; the model
  carries this through `objectProtoProps` and `AliasLookup`.
* Subprocess invocations (`exec`) and file-system effects are
  abstracted as explicit inputs: the stdout of a tool invocation is
  either a parseable payload (`some payload`) or not (`none`, covering
  empty stdout and `JSON.parse` failure), and "this `try` block threw"
  is an explicit boolean/optional input.
-/

/-- JS `String.prototype.startsWith` on character lists. -/
def startsWithChars : List Char → List Char → Bool
  | _, [] => true
  | [], _ :: _ => false
  | c :: s, d :: t => c == d && startsWithChars s t

/-- Helper for `strIncludes`: does `t` occur (contiguously) in `s`? -/
def includesChars : List Char → List Char → Bool
  | [], t => t.isEmpty
  | c :: s, t => startsWithChars (c :: s) t || includesChars s t

/-- JS `String.prototype.includes`. -/
def strIncludes (s t : String) : Bool := includesChars s.data t.data

/-- One entry of `results.checks` (`name`, `passed`, `message`); the
optional `details` payload of the source is display-only data and is not
modelled. -/
structure ValidationCheck where
  name : String
  passed : Bool
  message : String
deriving Repr, DecidableEq

/-- One entry of `results.securityIssues`.  The stage-specific payload
fields (matched substrings, rule id, line, package name) are condensed
into `info`. -/
structure SecurityIssue where
  type : String
  severity : String
  info : String
deriving Repr, DecidableEq

/-- What one validation stage contributes to the mutable `results`
object: the amount added to `results.score`, the checks pushed onto
`results.checks` and the issues pushed onto `results.securityIssues`,
in push order. -/
structure StageOut where
  scoreAdd : ℚ
  checks : List ValidationCheck
  issues : List SecurityIssue
deriving Repr, DecidableEq

/-- The result object built by `validateChallengeSolution`.  `grade` is
`none` while the JS property is still `undefined` (it is only assigned
on the non-throwing path). -/
structure ValidationResult where
  passed : Bool
  score : ℚ
  maxScore : ℚ
  checks : List ValidationCheck
  securityIssues : List SecurityIssue
  recommendations : List String
  grade : Option String
deriving Repr, DecidableEq

/-- A pattern rule set (`initializeValidationRules` entry).  The regex
objects themselves live in the external regex engine; here each pattern
is identified by a short name, in source order. -/
structure RuleSet where
  vulnerablePatterns : List String
  securePatterns : List String
  name : String
deriving Repr, DecidableEq

/-- Registry entry `sql-injection`: four vulnerable regexes
(string concatenation with quotes, template-literal injection, direct
query concatenation, WHERE-clause concatenation) and four secure ones
(parameterized query with array, query with parameter array, prepared
statement, escaped input). -/
def sqlInjectionRules : RuleSet :=
  { vulnerablePatterns :=
      ["quote-concat", "template-literal", "query-concat", "where-concat"]
    securePatterns :=
      ["param-array", "query-param-array", "prepare-call", "escape-call"]
    name := "SQL Injection Protection" }

/-- Registry entry `xss`: five vulnerable regexes (innerHTML with
template literal, innerHTML concatenation, outerHTML manipulation,
document.write, eval) and five secure ones. -/
def xssRules : RuleSet :=
  { vulnerablePatterns :=
      ["innerhtml-template", "innerhtml-concat", "outerhtml-concat",
       "document-write", "eval-call"]
    securePatterns :=
      ["textcontent", "innertext", "dompurify", "escapehtml",
       "createelement"]
    name := "XSS Protection" }

/-- Registry entry `auth`: five vulnerable regexes (hardcoded secrets,
weak JWT secrets, plaintext password comparison, algorithm none, long
expiration) and five secure ones. -/
def authRules : RuleSet :=
  { vulnerablePatterns :=
      ["hardcoded-secret", "weak-jwt-secret", "plain-password-compare",
       "algorithm-none", "long-expiry"]
    securePatterns :=
      ["env-var", "bcrypt-compare", "algorithm-whitelist", "short-expiry",
       "crypto-random"]
    name := "Authentication Security" }

/-- Registry entry `path-traversal`: four vulnerable regexes (direct
path join, traversal sequences, file read with concatenation, dynamic
require) and five secure ones. -/
def pathTraversalRules : RuleSet :=
  { vulnerablePatterns :=
      ["direct-path-join", "dotdot-slash", "read-concat", "dynamic-require"]
    securePatterns :=
      ["path-basename", "path-relative", "startswith-check",
       "whitelist-includes", "validatepath-call"]
    name := "Path Traversal Protection" }

/-- Lookup in the Map populated by `initializeValidationRules`
(exactly four keys), i.e. `this.validationRules.get(key)`. -/
def rulesGet (c : String) : Option RuleSet :=
  if c = "sql-injection" then some sqlInjectionRules
  else if c = "xss" then some xssRules
  else if c = "auth" then some authRules
  else if c = "path-traversal" then some pathTraversalRules
  else none

/-- Own-property names of `Object.prototype` in the JavaScript runtime.
The alias table in `mapCategoryToRules` is a plain object literal, so
the bracket lookup `mapping[category]` walks the prototype chain: for
each of these names it returns the inherited value (a function, or the
prototype object itself for the accessor), which is truthy and not a
string. -/
def objectProtoProps : List String :=
  ["constructor", "hasOwnProperty", "isPrototypeOf", "propertyIsEnumerable",
   "toLocaleString", "toString", "valueOf", "__defineGetter__",
   "__defineSetter__", "__lookupGetter__", "__lookupSetter__", "__proto__"]

/-- Own keys of the alias object literal in `mapCategoryToRules`. -/
def aliasOwnKeys : List String :=
  ["injection", "xss", "broken-auth", "broken-access",
   "security-misconfig", "xxe"]

/-- Value of the JavaScript expression `mapping[category] || default`
on the alias object literal: either a string (an own entry, or the
default when the bracket lookup is undefined), or a truthy non-string
value inherited from `Object.prototype`, which defeats the `||`
default. -/
inductive AliasLookup where
  | str (s : String)
  | inherited (name : String)
deriving Repr, DecidableEq

/-- Translation of `mapCategoryToRules`: an own entry of the alias
object wins; otherwise, for an `Object.prototype` property name the
bracket lookup returns the truthy inherited value, so the default does
not fire; otherwise the bracket lookup is undefined (falsy) and the
default key `sql-injection` is returned. -/
def mapCategoryToRules (category : String) : AliasLookup :=
  if category = "injection" then .str "sql-injection"
  else if category = "xss" then .str "xss"
  else if category = "broken-auth" then .str "auth"
  else if category = "broken-access" then .str "auth"
  else if category = "security-misconfig" then .str "auth"
  else if category = "xxe" then .str "path-traversal"
  else if objectProtoProps.contains category then .inherited category
  else .str "sql-injection"

/-- Application of `this.validationRules.get(...)` to the alias-lookup
value: the Map is keyed by the four registry strings only (Map lookup
does not consult the prototype chain), so a non-string inherited value
always misses. -/
def rulesGetAlias : AliasLookup → Option RuleSet
  | .str s => rulesGet s
  | .inherited _ => none

/-- The two-step rule resolution of `runPatternValidation`:
`this.validationRules.get(category) ||
 this.validationRules.get(this.mapCategoryToRules(category))`. -/
def lookupRules (category : String) : Option RuleSet :=
  match rulesGet category with
  | some r => some r
  | none => rulesGetAlias (mapCategoryToRules category)

/-- Abstraction of a submitted source text: per pattern of the resolved
rule set (in source order), the number of non-overlapping regex matches
in the text. -/
structure MatchProfile where
  vulnMatches : List Nat
  secureMatches : List Nat
deriving Repr, DecidableEq

/-- Number of distinct patterns that match at least once (used to state
the spec claim about "distinct matching patterns"). -/
def distinctMatching (counts : List Nat) : Nat :=
  (counts.filter (fun n => n != 0)).length

/-- Translation of `runPatternValidation` (securityValidator.js lines 151-215).
`vulnerableCount` and `secureCount` sum `matches.length` over all
patterns; one high-severity issue is pushed per vulnerable pattern with
a non-null match result; the three-branch scoring policy follows. -/
def runPatternValidation (category : String) (p : MatchProfile) : StageOut :=
  match lookupRules category with
  | none =>
      { scoreAdd := 0
        checks := [{ name := "Pattern Validation", passed := false,
                     message := "No validation rules found for category: " ++ category }]
        issues := [] }
  | some rules =>
      let vulnerableCount := p.vulnMatches.sum
      let secureCount := p.secureMatches.sum
      let issues :=
        (rules.vulnerablePatterns.zip p.vulnMatches).filterMap
          (fun pair =>
            if pair.2 != 0 then
              some { type := "vulnerability", severity := "high", info := pair.1 }
            else none)
      let patternScore : ℚ :=
        if vulnerableCount = 0 ∧ 0 < secureCount then 60
        else if vulnerableCount = 0 then 60 * (7 / 10)
        else max 0 (60 - 20 * (vulnerableCount : ℚ))
      { scoreAdd := patternScore
        checks := [{ name := rules.name
                     passed := vulnerableCount = 0
                     message :=
                       if vulnerableCount = 0 then
                         "✅ No " ++ rules.name.toLower ++ " vulnerabilities detected"
                       else
                         "❌ Found " ++ toString vulnerableCount ++ " potential vulnerabilities" }]
        issues := issues }

/-- One diagnostic of the external linter JSON output
(`{ruleId, message, line, severity}`; `ruleId` may be null). -/
structure LintMessage where
  ruleId : Option String
  message : String
  line : Nat
  severity : Nat
deriving Repr, DecidableEq

/-- One per-file entry of the linter JSON output. -/
structure FileResult where
  messages : List LintMessage
deriving Repr, DecidableEq

/-- Translation of `runESLint` (securityValidator.js lines 409-425): the promise never
rejects; a parseable stdout resolves to the parsed array, empty stdout
or a `JSON.parse` failure resolves to `[]`.  The input abstracts the
subprocess stdout: `some payload` when it parses as JSON, `none`
otherwise (tool not installed, crash, non-JSON output). -/
def runESLint (execStdout : Option (List FileResult)) : List FileResult :=
  match execStdout with
  | some payload => payload
  | none => []

/-- Predicate corresponding to the filter on messages whose `ruleId`
is non-null and contains "security". -/
def isSecurityMsg (m : LintMessage) : Bool :=
  match m.ruleId with
  | some rid => strIncludes rid "security"
  | none => false

/-- The `securityIssues` extraction of `runStaticAnalysis`
(securityValidator.js lines 229-233): all linter diagnostics, over all
files, whose rule id signals a security concern. -/
def securityMsgs (results : List FileResult) : List LintMessage :=
  results.flatMap (fun f => f.messages.filter isSecurityMsg)

/-- Translation of `runStaticAnalysis` (securityValidator.js lines 217-274).
`setupThrows` abstracts an exception thrown inside the `try` block of the stage
block before the linter result is inspected (e.g. a file-system failure
in `setupESLintSecurity`, or `filePaths[0]` being undefined); the catch
branch awards `25 * 0.5` with a partial-validation check.  On the
non-throwing path: if the (never-rejecting) `runESLint` result is empty
— which is exactly what a failed linter invocation produces — the
`eslintResults.length > 0` guard is false and the stage adds nothing at
all, neither score nor check. -/
def runStaticAnalysis (setupThrows : Bool)
    (execStdout : Option (List FileResult)) : StageOut :=
  if setupThrows then
    { scoreAdd := 25 * (1 / 2)
      checks := [{ name := "Static Analysis", passed := false,
                   message := "⚠️ Static analysis tools not available - partial validation only" }]
      issues := [] }
  else
    let eslintResults := runESLint execStdout
    if 0 < eslintResults.length then
      let securityIssues := securityMsgs eslintResults
      let staticScore : ℚ :=
        if securityIssues.length = 0 then 25
        else max 0 (25 - 5 * (securityIssues.length : ℚ))
      { scoreAdd := staticScore
        checks := [{ name := "Static Analysis (ESLint Security)"
                     passed := securityIssues.length = 0
                     message :=
                       if securityIssues.length = 0 then
                         "✅ No static analysis security issues found"
                       else
                         "❌ Found " ++ toString securityIssues.length ++ " static analysis issues" }]
        issues := securityIssues.map (fun issue =>
          { type := "static-analysis"
            severity := if issue.severity = 2 then "high" else "medium"
            info := issue.ruleId.getD "" }) }
    else
      { scoreAdd := 0, checks := [], issues := [] }

/-- One value of the `vulnerabilities` mapping in `npm audit --json`
output, keyed by package name. -/
structure AuditVuln where
  severity : String
  title : String
deriving Repr, DecidableEq

/-- Parsed `npm audit --json` output; an absent `vulnerabilities`
property is the empty list. -/
structure AuditResult where
  vulnerabilities : List (String × AuditVuln)
deriving Repr, DecidableEq

/-- Translation of `runNpmAudit` (securityValidator.js lines 427-441): the promise
never rejects; parseable stdout resolves to the parsed object, empty
stdout or a parse failure resolves to `null`. -/
def runNpmAudit (execStdout : Option AuditResult) : Option AuditResult :=
  execStdout

/-- Translation of `runDependencyScanning` (securityValidator.js lines 276-330).
`stageThrows` abstracts an exception inside the `try` block of the stage
(e.g. a file-system failure); the catch branch awards `15 * 0.8` with a
passing "skipped" check.  Otherwise: with no package.json the stage
awards the full 15; with a package.json it runs `runNpmAudit`, and a
`null` audit result — exactly what a failed audit invocation produces —
makes the `if (auditResults)` guard false so the stage adds nothing at
all, neither score nor check. -/
def runDependencyScanning (stageThrows : Bool) (pkgJsonExists : Bool)
    (auditStdout : Option AuditResult) : StageOut :=
  if stageThrows then
    { scoreAdd := 15 * (4 / 5)
      checks := [{ name := "Dependency Scan", passed := true,
                   message := "⚠️ Dependency scan skipped - no package.json or npm not available" }]
      issues := [] }
  else if pkgJsonExists then
    match runNpmAudit auditStdout with
    | some auditResults =>
        let vulnCount := auditResults.vulnerabilities.length
        { scoreAdd :=
            if vulnCount = 0 then 15
            else max 0 (15 - 3 * (vulnCount : ℚ))
          checks := [{ name := "Dependency Security Scan"
                       passed := vulnCount = 0
                       message :=
                         if vulnCount = 0 then
                           "✅ No known vulnerabilities in dependencies"
                         else
                           "❌ Found " ++ toString vulnCount ++ " vulnerable dependencies" }]
          issues := auditResults.vulnerabilities.map (fun dv =>
            { type := "dependency", severity := dv.2.severity, info := dv.1 }) }
    | none => { scoreAdd := 0, checks := [], issues := [] }
  else
    { scoreAdd := 15, checks := [], issues := [] }

/-- Translation of `calculateGrade` (securityValidator.js lines 456-467). -/
def calculateGrade (score : ℚ) : String :=
  if 95 ≤ score then "A+"
  else if 90 ≤ score then "A"
  else if 85 ≤ score then "A-"
  else if 80 ≤ score then "B+"
  else if 75 ≤ score then "B"
  else if 70 ≤ score then "B-"
  else if 65 ≤ score then "C+"
  else if 60 ≤ score then "C"
  else if 55 ≤ score then "C-"
  else "F"

/-- Position of a grade letter in the ascending grade order
(F < C- < C < C+ < B- < B < B+ < A- < A < A+), used to state
monotonicity of `calculateGrade`. -/
def gradeRank (g : String) : Nat :=
  if g = "A+" then 9
  else if g = "A" then 8
  else if g = "A-" then 7
  else if g = "B+" then 6
  else if g = "B" then 5
  else if g = "B-" then 4
  else if g = "C+" then 3
  else if g = "C" then 2
  else if g = "C-" then 1
  else 0

/-- Environment of one `validateChallengeSolution` call: the inputs of
the three stages, plus `unexpectedErr`: `some k` means stage `k` threw
an unexpected exception (so the stages before it had already mutated
`results` and the catch handler of the orchestrator runs), `none` means all
three stages returned normally.  `errMessage` is the message of the
thrown error. -/
structure ValidationEnv where
  category : String
  profile : MatchProfile
  setupThrows : Bool
  eslintStdout : Option (List FileResult)
  depThrows : Bool
  pkgJsonExists : Bool
  auditStdout : Option AuditResult
  unexpectedErr : Option (Fin 3)
  errMessage : String
deriving Repr, DecidableEq

/-- The three stage contributions of a run, in execution order
(pattern validation, static analysis, dependency scanning). -/
def stageOuts (env : ValidationEnv) : List StageOut :=
  [runPatternValidation env.category env.profile,
   runStaticAnalysis env.setupThrows env.eslintStdout,
   runDependencyScanning env.depThrows env.pkgJsonExists env.auditStdout]

/-- The failing check pushed by the catch handler of the orchestrator. -/
def validationErrorCheck (msg : String) : ValidationCheck :=
  { name := "Validation Error", passed := false,
    message := "Validation failed: " ++ msg }

/-- Translation of `validateChallengeSolution` (securityValidator.js lines 115-149):
runs the three stages in order over the initially-zero `results`
object; on the non-throwing path sets `passed = score >= 80` and the
grade; if stage `k` throws, the contributions of the stages before `k`
have already been accumulated and the catch handler appends the single
"Validation Error" check, leaving `passed` at its initial `false` and
`grade` unassigned. -/
def validateChallengeSolution (env : ValidationEnv) : ValidationResult :=
  let outs := stageOuts env
  match env.unexpectedErr with
  | some k =>
      let done := outs.take k.val
      { passed := false
        score := (done.map StageOut.scoreAdd).sum
        maxScore := 100
        checks := done.flatMap StageOut.checks ++ [validationErrorCheck env.errMessage]
        securityIssues := done.flatMap StageOut.issues
        recommendations := []
        grade := none }
  | none =>
      let score := (outs.map StageOut.scoreAdd).sum
      { passed := decide (80 ≤ score)
        score := score
        maxScore := 100
        checks := outs.flatMap StageOut.checks
        securityIssues := outs.flatMap StageOut.issues
        recommendations := []
        grade := some (calculateGrade score) }

theorem rulesGet_cases (c : String) (r : RuleSet) (h : rulesGet c = some r) :
    r = sqlInjectionRules ∨ r = xssRules ∨ r = authRules ∨ r = pathTraversalRules := by
  unfold rulesGet at h
  split_ifs at h <;> simp_all

theorem lookupRules_isSome_of_not_proto (c : String)
    (h : objectProtoProps.contains c = false) :
    (lookupRules c).isSome = true := by
  unfold lookupRules
  cases heq : rulesGet c with
  | some r => rfl
  | none =>
      unfold mapCategoryToRules
      split_ifs with h1 h2 h3 h4 h5 h6 h7
      · decide
      · decide
      · decide
      · decide
      · decide
      · decide
      · rw [h7] at h
        simp at h
      · decide

theorem lookupRules_cases (c : String) (r : RuleSet) (h : lookupRules c = some r) :
    r = sqlInjectionRules ∨ r = xssRules ∨ r = authRules ∨ r = pathTraversalRules := by
  unfold lookupRules at h
  cases heq : rulesGet c with
  | some r' =>
      rw [heq] at h
      simp only [Option.some.injEq] at h
      exact h ▸ rulesGet_cases c r' heq
  | none =>
      rw [heq] at h
      cases hma : mapCategoryToRules c with
      | str s =>
          rw [hma] at h
          simp only [rulesGetAlias] at h
          exact rulesGet_cases s r h
      | inherited n =>
          rw [hma] at h
          simp [rulesGetAlias] at h

/-! ## C9 -/

/-- C9 (amended): a category string that is neither a registry key,
nor an own alias-table entry, nor an `Object.prototype` property name
(the example in the spec is "foo-bar") resolves, via the alias-table
default, to the SQL-injection rule set, and pattern validation runs its
normal branch, emitting exactly the one check named after the
SQL-injection rule set; the embedding is total, so nothing throws.  For
the `Object.prototype` property names the original universal fails: the
truthy inherited value defeats the default and validation takes the
failing branch instead (see the counterexample). -/
theorem unknown_category_falls_back (c : String) (p : MatchProfile)
    (hreg : rulesGet c = none) (halias : aliasOwnKeys.contains c = false)
    (hproto : objectProtoProps.contains c = false) :
    lookupRules c = some sqlInjectionRules ∧
    ((runPatternValidation c p).checks.map ValidationCheck.name) =
      ["SQL Injection Protection"] := by
  have h1 : ¬ c = "injection" := fun hc => by
    subst hc; exact absurd halias (by decide)
  have h2 : ¬ c = "xss" := fun hc => by
    subst hc; exact absurd halias (by decide)
  have h3 : ¬ c = "broken-auth" := fun hc => by
    subst hc; exact absurd halias (by decide)
  have h4 : ¬ c = "broken-access" := fun hc => by
    subst hc; exact absurd halias (by decide)
  have h5 : ¬ c = "security-misconfig" := fun hc => by
    subst hc; exact absurd halias (by decide)
  have h6 : ¬ c = "xxe" := fun hc => by
    subst hc; exact absurd halias (by decide)
  have hstep : lookupRules c = rulesGetAlias (mapCategoryToRules c) := by
    unfold lookupRules
    rw [hreg]
  have hl : lookupRules c = some sqlInjectionRules := by
    rw [hstep]
    unfold mapCategoryToRules
    rw [if_neg h1, if_neg h2, if_neg h3, if_neg h4, if_neg h5, if_neg h6,
      if_neg (by rw [hproto]; simp : ¬ objectProtoProps.contains c = true)]
    decide
  refine ⟨hl, ?_⟩
  simp only [runPatternValidation, hl]
  rfl

/-- Witness for C9 at the concrete unknown category "foo-bar". -/
theorem unknown_category_falls_back_witness :
    lookupRules "foo-bar" = some sqlInjectionRules ∧
    ((runPatternValidation "foo-bar" ⟨[0, 0, 0, 0], [0, 0, 0, 0]⟩).checks.map
      ValidationCheck.name) = ["SQL Injection Protection"] :=
  unknown_category_falls_back "foo-bar" ⟨[0, 0, 0, 0], [0, 0, 0, 0]⟩
    (by decide) (by decide) (by decide)

/-- Counterexample to C9 as stated: the category "constructor" is
neither a registry key nor an own alias-table entry, yet it does not
fall back to the SQL-injection rule set: the bracket lookup on the
alias object literal returns the truthy inherited
`Object.prototype.constructor`, the Map lookup of that non-string value
misses, and pattern validation takes the failing
"No validation rules found" branch. -/
theorem proto_category_counterexample :
    rulesGet "constructor" = none ∧
    aliasOwnKeys.contains "constructor" = false ∧
    lookupRules "constructor" = none ∧
    ((runPatternValidation "constructor" ⟨[0, 0, 0, 0], [0, 0, 0, 0]⟩).checks.map
      ValidationCheck.name) = ["Pattern Validation"] := by
  refine ⟨by decide, by decide, by decide, by decide⟩

/-! ## C10 -/

/-- C10 (amended): for every category string that is not an
`Object.prototype` property name, the two-step rule lookup (direct
registry lookup, then lookup of the mapped alias value) yields a rule
set — every own alias-table value and the final default are registry
keys — and the emitted check never carries the failing name
"Pattern Validation".  The original claim is false for the
`Object.prototype` property names: there the bracket lookup on the
alias object literal returns a truthy inherited non-string value, the
Map lookup of it misses, and the failing branch is reached (see the
counterexample). -/
theorem rule_lookup_total (c : String) (p : MatchProfile)
    (hproto : objectProtoProps.contains c = false) :
    (lookupRules c).isSome = true ∧
    (((runPatternValidation c p).checks.map ValidationCheck.name).all
      (fun n => n != "Pattern Validation")) = true := by
  have hs := lookupRules_isSome_of_not_proto c hproto
  refine ⟨hs, ?_⟩
  cases heq : lookupRules c with
  | none => rw [heq] at hs; simp at hs
  | some rules =>
      have hmem := lookupRules_cases c rules heq
      simp only [runPatternValidation, heq, List.map, List.all]
      rcases hmem with h | h | h | h <;> subst h <;> decide

/-- Witness for C10 at the concrete non-prototype category "ssrf". -/
theorem rule_lookup_total_witness :
    (lookupRules "ssrf").isSome = true ∧
    (((runPatternValidation "ssrf" ⟨[0, 0, 0, 0], [0, 0, 0, 0]⟩).checks.map
        ValidationCheck.name).all (fun n => n != "Pattern Validation")) = true :=
  rule_lookup_total "ssrf" ⟨[0, 0, 0, 0], [0, 0, 0, 0]⟩ (by decide)

/-- Counterexample to C10 as stated: at the category "toString" the
two-step lookup yields no rule set and `runPatternValidation` emits the
failing "Pattern Validation" check with sub-score 0 — the branch the
claim calls unreachable is reached. -/
theorem failing_branch_reachable_counterexample :
    lookupRules "toString" = none ∧
    ((runPatternValidation "toString" ⟨[0, 0, 0, 0], [0, 0, 0, 0]⟩).checks.map
      ValidationCheck.name) = ["Pattern Validation"] ∧
    (runPatternValidation "toString" ⟨[0, 0, 0, 0], [0, 0, 0, 0]⟩).scoreAdd = 0 := by
  refine ⟨by decide, by decide, rfl⟩

/-! ## C1 -/

/-- C1 (amended): the 20-point deduction is applied per individual
pattern occurrence, not per distinct matching pattern: whenever the
total number of vulnerable-pattern matches (summed over all patterns of
the resolved rule set) is m ≥ 1, the pattern sub-score equals
`max(0, 60 - 20*m)`, whatever the secure-pattern matches are.  The
formula `max(0, 60 - 20*k)` in the spec, for `k` distinct matching patterns,
holds only when each matching pattern matches exactly once.  The
hypothesis `hres` states that a rule set resolves for the category, as
the claim presupposes by speaking of evaluation under a rule set; it
holds for every category except the `Object.prototype` property names
(see C10). -/
theorem pattern_score_per_occurrence (c : String) (p : MatchProfile)
    (hres : (lookupRules c).isSome = true)
    (h : 0 < p.vulnMatches.sum) :
    (runPatternValidation c p).scoreAdd =
      max 0 (60 - 20 * (p.vulnMatches.sum : ℚ)) := by
  cases heq : lookupRules c with
  | none => rw [heq] at hres; simp at hres
  | some rules =>
      have h2 : ¬ p.vulnMatches.sum = 0 := by omega
      simp [runPatternValidation, heq, h2]

/-- Witness for C1: a text matching two different SQL-injection
vulnerable patterns once each (total m = 2) scores
`max(0, 60 - 40) = 20`. -/
theorem pattern_score_per_occurrence_witness :
    (runPatternValidation "sql-injection"
        ⟨[1, 1, 0, 0], [0, 0, 0, 0]⟩).scoreAdd =
      max 0 (60 - 20 * ((([1, 1, 0, 0] : List ℕ).sum : ℚ))) :=
  pattern_score_per_occurrence "sql-injection" ⟨[1, 1, 0, 0], [0, 0, 0, 0]⟩
    (by decide) (by decide)

/-- Counterexample to C1 as stated: a source text in which exactly one
distinct vulnerable pattern matches, but twice (e.g. two template
literals, which the second SQL-injection regex matches twice), and no
secure pattern matches.  The claim predicts `max(0, 60 - 20*1) = 40`;
the code computes `max(0, 60 - 20*2) = 20`. -/
theorem pattern_score_distinct_counterexample :
    distinctMatching [0, 2, 0, 0] = 1 ∧
    (runPatternValidation "sql-injection"
        ⟨[0, 2, 0, 0], [0, 0, 0, 0]⟩).scoreAdd = 20 ∧
    max 0 (60 - 20 * ((1 : ℕ) : ℚ)) = 40 ∧
    (20 : ℚ) ≠ 40 := by
  have hl : lookupRules "sql-injection" = some sqlInjectionRules := by decide
  refine ⟨by decide, ?_, ?_, by norm_num⟩
  · simp [runPatternValidation, hl]
    rw [max_eq_right (by norm_num : (0 : ℚ) ≤ 60 - 20 * 2)]
    norm_num
  · rw [max_eq_right (by norm_num : (0 : ℚ) ≤ 60 - 20 * ((1 : ℕ) : ℚ))]
    norm_num

/-! ## C6 -/

/-- C6: with zero vulnerable-pattern occurrences the pattern sub-score
is exactly 60 when at least one secure-pattern occurrence is present,
and exactly 42 (the source expression `60 * 0.7`) when none is.  The
hypothesis `hres` states that a rule set resolves for the category, as
the claim presupposes by speaking of pattern occurrences under a
category; it holds for every category except the `Object.prototype`
property names (see C10). -/
theorem pattern_score_no_vulnerable (c : String) (p : MatchProfile)
    (hres : (lookupRules c).isSome = true)
    (h : p.vulnMatches.sum = 0) :
    (0 < p.secureMatches.sum → (runPatternValidation c p).scoreAdd = 60) ∧
    (p.secureMatches.sum = 0 → (runPatternValidation c p).scoreAdd = 42) := by
  cases heq : lookupRules c with
  | none => rw [heq] at hres; simp at hres
  | some rules =>
      constructor
      · intro hsec
        simp [runPatternValidation, heq, h, hsec]
      · intro hsec
        simp [runPatternValidation, heq, h, hsec]
        norm_num

/-- Witness for C6: under the XSS rule set, a clean text with one
`textContent` match scores 60, and a clean text with no secure match
scores 42. -/
theorem pattern_score_no_vulnerable_witness :
    (runPatternValidation "xss" ⟨[0, 0, 0, 0, 0], [1, 0, 0, 0, 0]⟩).scoreAdd = 60 ∧
    (runPatternValidation "xss" ⟨[0, 0, 0, 0, 0], [0, 0, 0, 0, 0]⟩).scoreAdd = 42 :=
  ⟨(pattern_score_no_vulnerable "xss" ⟨[0, 0, 0, 0, 0], [1, 0, 0, 0, 0]⟩
      (by decide) (by decide)).1 (by decide),
   (pattern_score_no_vulnerable "xss" ⟨[0, 0, 0, 0, 0], [0, 0, 0, 0, 0]⟩
      (by decide) (by decide)).2 (by decide)⟩

/-! ## C7 -/

/-- Proof-side rank of a score under the grade table, used to transport
monotonicity through `calculateGrade`. -/
def scoreRank (s : ℚ) : Nat :=
  if 95 ≤ s then 9
  else if 90 ≤ s then 8
  else if 85 ≤ s then 7
  else if 80 ≤ s then 6
  else if 75 ≤ s then 5
  else if 70 ≤ s then 4
  else if 65 ≤ s then 3
  else if 60 ≤ s then 2
  else if 55 ≤ s then 1
  else 0

theorem gradeRank_calculateGrade (s : ℚ) :
    gradeRank (calculateGrade s) = scoreRank s := by
  unfold calculateGrade scoreRank
  split_ifs <;> decide

/-- The grade thresholds of the table, highest first. -/
def gradeThresholds : List ℚ := [95, 90, 85, 80, 75, 70, 65, 60, 55]

theorem scoreRank_eq_countP (s : ℚ) :
    scoreRank s = gradeThresholds.countP (fun q => decide (q ≤ s)) := by
  unfold scoreRank gradeThresholds
  split_ifs with h1 h2 h3 h4 h5 h6 h7 h8 h9
  · simp [List.countP_cons, decide_eq_true_eq, h1,
      (by linarith : (90 : ℚ) ≤ s), (by linarith : (85 : ℚ) ≤ s),
      (by linarith : (80 : ℚ) ≤ s), (by linarith : (75 : ℚ) ≤ s),
      (by linarith : (70 : ℚ) ≤ s), (by linarith : (65 : ℚ) ≤ s),
      (by linarith : (60 : ℚ) ≤ s), (by linarith : (55 : ℚ) ≤ s)]
  · simp [List.countP_cons, decide_eq_true_eq, h1, h2,
      (by linarith : (85 : ℚ) ≤ s), (by linarith : (80 : ℚ) ≤ s),
      (by linarith : (75 : ℚ) ≤ s), (by linarith : (70 : ℚ) ≤ s),
      (by linarith : (65 : ℚ) ≤ s), (by linarith : (60 : ℚ) ≤ s),
      (by linarith : (55 : ℚ) ≤ s)]
  · simp [List.countP_cons, decide_eq_true_eq, h1, h2, h3,
      (by linarith : (80 : ℚ) ≤ s), (by linarith : (75 : ℚ) ≤ s),
      (by linarith : (70 : ℚ) ≤ s), (by linarith : (65 : ℚ) ≤ s),
      (by linarith : (60 : ℚ) ≤ s), (by linarith : (55 : ℚ) ≤ s)]
  · simp [List.countP_cons, decide_eq_true_eq, h1, h2, h3, h4,
      (by linarith : (75 : ℚ) ≤ s), (by linarith : (70 : ℚ) ≤ s),
      (by linarith : (65 : ℚ) ≤ s), (by linarith : (60 : ℚ) ≤ s),
      (by linarith : (55 : ℚ) ≤ s)]
  · simp [List.countP_cons, decide_eq_true_eq, h1, h2, h3, h4, h5,
      (by linarith : (70 : ℚ) ≤ s), (by linarith : (65 : ℚ) ≤ s),
      (by linarith : (60 : ℚ) ≤ s), (by linarith : (55 : ℚ) ≤ s)]
  · simp [List.countP_cons, decide_eq_true_eq, h1, h2, h3, h4, h5, h6,
      (by linarith : (65 : ℚ) ≤ s), (by linarith : (60 : ℚ) ≤ s),
      (by linarith : (55 : ℚ) ≤ s)]
  · simp [List.countP_cons, decide_eq_true_eq, h1, h2, h3, h4, h5, h6, h7,
      (by linarith : (60 : ℚ) ≤ s), (by linarith : (55 : ℚ) ≤ s)]
  · simp [List.countP_cons, decide_eq_true_eq, h1, h2, h3, h4, h5, h6, h7, h8,
      (by linarith : (55 : ℚ) ≤ s)]
  · simp [List.countP_cons, decide_eq_true_eq, h1, h2, h3, h4, h5, h6, h7, h8, h9]
  · simp [List.countP_cons, decide_eq_true_eq, h1, h2, h3, h4, h5, h6, h7, h8, h9]

theorem scoreRank_mono (s t : ℚ) (h : s ≤ t) : scoreRank s ≤ scoreRank t := by
  rw [scoreRank_eq_countP, scoreRank_eq_countP]
  refine List.countP_mono_left (fun q _ hq => ?_)
  simp only [decide_eq_true_eq] at hq ⊢
  linarith

set_option maxHeartbeats 4000000 in
/-- C7: `calculateGrade` is the deterministic step function of the
table (each row stated as an interval), it is monotone with respect to
the grade order F < C- < C < C+ < B- < B < B+ < A- < A < A+, and in
particular 80 maps to "B+" and 79 to "B". -/
theorem grade_step_function :
    (∀ s : ℚ, 95 ≤ s → calculateGrade s = "A+") ∧
    (∀ s : ℚ, 90 ≤ s → s < 95 → calculateGrade s = "A") ∧
    (∀ s : ℚ, 85 ≤ s → s < 90 → calculateGrade s = "A-") ∧
    (∀ s : ℚ, 80 ≤ s → s < 85 → calculateGrade s = "B+") ∧
    (∀ s : ℚ, 75 ≤ s → s < 80 → calculateGrade s = "B") ∧
    (∀ s : ℚ, 70 ≤ s → s < 75 → calculateGrade s = "B-") ∧
    (∀ s : ℚ, 65 ≤ s → s < 70 → calculateGrade s = "C+") ∧
    (∀ s : ℚ, 60 ≤ s → s < 65 → calculateGrade s = "C") ∧
    (∀ s : ℚ, 55 ≤ s → s < 60 → calculateGrade s = "C-") ∧
    (∀ s : ℚ, s < 55 → calculateGrade s = "F") ∧
    (∀ s t : ℚ, s ≤ t →
      gradeRank (calculateGrade s) ≤ gradeRank (calculateGrade t)) ∧
    calculateGrade 80 = "B+" ∧ calculateGrade 79 = "B" := by
  refine ⟨?_, ?_, ?_, ?_, ?_, ?_, ?_, ?_, ?_, ?_, ?_, by decide, by decide⟩
  · intro s h1
    unfold calculateGrade
    split_ifs <;> first | rfl | (exfalso; linarith)
  · intro s h1 h2
    unfold calculateGrade
    split_ifs <;> first | rfl | (exfalso; linarith)
  · intro s h1 h2
    unfold calculateGrade
    split_ifs <;> first | rfl | (exfalso; linarith)
  · intro s h1 h2
    unfold calculateGrade
    split_ifs <;> first | rfl | (exfalso; linarith)
  · intro s h1 h2
    unfold calculateGrade
    split_ifs <;> first | rfl | (exfalso; linarith)
  · intro s h1 h2
    unfold calculateGrade
    split_ifs <;> first | rfl | (exfalso; linarith)
  · intro s h1 h2
    unfold calculateGrade
    split_ifs <;> first | rfl | (exfalso; linarith)
  · intro s h1 h2
    unfold calculateGrade
    split_ifs <;> first | rfl | (exfalso; linarith)
  · intro s h1 h2
    unfold calculateGrade
    split_ifs <;> first | rfl | (exfalso; linarith)
  · intro s h1
    unfold calculateGrade
    split_ifs <;> first | rfl | (exfalso; linarith)
  · intro s t h
    rw [gradeRank_calculateGrade, gradeRank_calculateGrade]
    exact scoreRank_mono s t h

/-- Witness for C7: instantiates the table rows and monotonicity at
concrete scores. -/
theorem grade_step_function_witness :
    calculateGrade 97 = "A+" ∧ calculateGrade 54 = "F" ∧
    gradeRank (calculateGrade 50) ≤ gradeRank (calculateGrade 100) := by
  obtain ⟨hA, -, -, -, -, -, -, -, -, hF, hmono, -, -⟩ := grade_step_function
  exact ⟨hA 97 (by norm_num), hF 54 (by norm_num), hmono 50 100 (by norm_num)⟩

/-! ## C2 -/

/-- C2 (code evaluation at the failing input): when setup succeeds but
the linter invocation itself fails (tool not installed, crash or
non-JSON output — i.e. no parseable stdout, so `runESLint` resolves to
the empty list), the static-analysis stage adds 0 to the score and
appends no check at all; the `25 * 0.5` partial-credit branch with its
partial-validation check is taken only when the `try` block of the stage
throws, which a failed linter invocation never causes. -/
theorem static_tool_failure_adds_nothing :
    runStaticAnalysis false none =
      { scoreAdd := 0, checks := [], issues := [] } ∧
    (runStaticAnalysis true none).scoreAdd = 25 * (1 / 2) ∧
    (25 : ℚ) * (1 / 2) = 25 / 2 := by
  refine ⟨rfl, rfl, by norm_num⟩

/-! ## C3 -/

/-- C3 (code evaluation at the failing input): when a dependency
manifest exists but the audit tool fails to run (no parseable stdout,
so `runNpmAudit` resolves to `null`), the dependency stage adds 0 to
the score and appends no check at all; the `15 * 0.8 = 12`
partial-credit branch with its explanatory check is taken only when the
`try` block of the stage throws, which a failed audit invocation never
causes. -/
theorem dependency_audit_failure_adds_nothing :
    runDependencyScanning false true none =
      { scoreAdd := 0, checks := [], issues := [] } ∧
    (runDependencyScanning true true none).scoreAdd = 15 * (4 / 5) ∧
    (15 : ℚ) * (4 / 5) = 12 := by
  refine ⟨rfl, rfl, by norm_num⟩

/-! ## C4 -/

theorem pattern_scoreAdd_bounds (c : String) (p : MatchProfile) :
    0 ≤ (runPatternValidation c p).scoreAdd ∧
    (runPatternValidation c p).scoreAdd ≤ 60 ∧
    ∃ n : ℤ, (runPatternValidation c p).scoreAdd = (n : ℚ) := by
  cases heq : lookupRules c with
  | none =>
      simp only [runPatternValidation, heq]
      refine ⟨le_refl 0, by norm_num, 0, by norm_num⟩
  | some rules =>
      simp only [runPatternValidation, heq]
      set v := p.vulnMatches.sum with hv
      split_ifs with h1 h2
      · exact ⟨by norm_num, by norm_num, 60, by norm_num⟩
      · exact ⟨by norm_num, by norm_num, 42, by norm_num⟩
      · refine ⟨le_max_left 0 _, max_le (by norm_num) (by
          have : (0 : ℚ) ≤ 20 * (v : ℚ) := by positivity
          linarith), ?_⟩
        rcases le_total (60 - 20 * (v : ℚ)) 0 with hle | hle
        · exact ⟨0, by rw [max_eq_left hle]; norm_num⟩
        · refine ⟨60 - 20 * (v : ℤ), ?_⟩
          rw [max_eq_right hle]
          push_cast
          ring

theorem cap_minus_step_bounds (cap per : ℤ) (n : ℕ) (hcap : 0 ≤ cap)
    (hper : 0 ≤ per) :
    0 ≤ max 0 ((cap : ℚ) - (per : ℚ) * (n : ℚ)) ∧
    max 0 ((cap : ℚ) - (per : ℚ) * (n : ℚ)) ≤ (cap : ℚ) ∧
    ∃ z : ℤ, max 0 ((cap : ℚ) - (per : ℚ) * (n : ℚ)) = (z : ℚ) := by
  refine ⟨le_max_left 0 _, max_le (by exact_mod_cast hcap) (by
      have h1 : (0 : ℚ) ≤ (per : ℚ) * (n : ℚ) := by positivity
      linarith), ?_⟩
  rcases le_total ((cap : ℚ) - (per : ℚ) * (n : ℚ)) 0 with hle | hle
  · exact ⟨0, by rw [max_eq_left hle]; norm_num⟩
  · refine ⟨cap - per * (n : ℤ), ?_⟩
    rw [max_eq_right hle]
    push_cast
    ring

theorem static_scoreAdd_bounds (b : Bool) (e : Option (List FileResult)) :
    0 ≤ (runStaticAnalysis b e).scoreAdd ∧
    (runStaticAnalysis b e).scoreAdd ≤ 25 ∧
    ∃ n : ℤ, 2 * (runStaticAnalysis b e).scoreAdd = (n : ℚ) := by
  simp only [runStaticAnalysis]
  by_cases hb : b = true
  · rw [if_pos hb]
    exact ⟨by norm_num, by norm_num, 25, by norm_num⟩
  · rw [if_neg hb]
    by_cases hl : 0 < (runESLint e).length
    · rw [if_pos hl]
      by_cases hz : (securityMsgs (runESLint e)).length = 0
      · rw [if_pos hz]
        exact ⟨by norm_num, by norm_num, 50, by norm_num⟩
      · rw [if_neg hz]
        change 0 ≤ max 0 ((25 : ℚ) - 5 * ((securityMsgs (runESLint e)).length : ℚ)) ∧ _ ∧ _
        obtain ⟨b1, b2, z, hz'⟩ :=
          cap_minus_step_bounds 25 5 (securityMsgs (runESLint e)).length
            (by norm_num) (by norm_num)
        refine ⟨b1, ?_, 2 * z, ?_⟩
        · change max 0 ((25 : ℚ) - 5 * ((securityMsgs (runESLint e)).length : ℚ)) ≤ 25
          exact_mod_cast b2
        · change 2 * max 0 ((25 : ℚ) - 5 * ((securityMsgs (runESLint e)).length : ℚ)) = _
          push_cast at hz' ⊢
          rw [hz']
    · rw [if_neg hl]
      exact ⟨le_refl 0, by norm_num, 0, by norm_num⟩

theorem dep_scoreAdd_bounds (b pk : Bool) (a : Option AuditResult) :
    0 ≤ (runDependencyScanning b pk a).scoreAdd ∧
    (runDependencyScanning b pk a).scoreAdd ≤ 15 ∧
    ∃ n : ℤ, (runDependencyScanning b pk a).scoreAdd = (n : ℚ) := by
  simp only [runDependencyScanning, runNpmAudit]
  by_cases hb : b = true
  · rw [if_pos hb]
    exact ⟨by norm_num, by norm_num, 12, by norm_num⟩
  · rw [if_neg hb]
    by_cases hp : pk = true
    · rw [if_pos hp]
      cases a with
      | some res =>
          by_cases hz : res.vulnerabilities.length = 0
          · simp only [if_pos hz]
            exact ⟨by norm_num, by norm_num, 15, by norm_num⟩
          · simp only [if_neg hz]
            change 0 ≤ max 0 ((15 : ℚ) - 3 * (res.vulnerabilities.length : ℚ)) ∧ _ ∧ _
            obtain ⟨b1, b2, z, hz'⟩ :=
              cap_minus_step_bounds 15 3 res.vulnerabilities.length
                (by norm_num) (by norm_num)
            refine ⟨b1, ?_, z, ?_⟩
            · change max 0 ((15 : ℚ) - 3 * (res.vulnerabilities.length : ℚ)) ≤ 15
              exact_mod_cast b2
            · exact hz'
      | none => exact ⟨le_refl 0, by norm_num, 0, by norm_num⟩
    · rw [if_neg hp]
      exact ⟨by norm_num, by norm_num, 15, by norm_num⟩

/-- C4 (amended): for every call the returned score lies in [0, 100]
and twice the score is an integer (the score itself need not be — the
static-analysis degradation branch contributes 25 × 0.5 = 12.5); when
no stage throws unexpectedly the score is exactly the sum of the three
sub-scores, each independently capped (pattern ≤ 60, static ≤ 25,
dependency ≤ 15) and clamped to ≥ 0. -/
theorem validation_score_bounds (env : ValidationEnv) :
    0 ≤ (validateChallengeSolution env).score ∧
    (validateChallengeSolution env).score ≤ 100 ∧
    (∃ n : ℤ, 2 * (validateChallengeSolution env).score = (n : ℚ)) ∧
    (env.unexpectedErr = none →
      (validateChallengeSolution env).score =
        (runPatternValidation env.category env.profile).scoreAdd +
        (runStaticAnalysis env.setupThrows env.eslintStdout).scoreAdd +
        (runDependencyScanning env.depThrows env.pkgJsonExists env.auditStdout).scoreAdd) ∧
    0 ≤ (runPatternValidation env.category env.profile).scoreAdd ∧
    (runPatternValidation env.category env.profile).scoreAdd ≤ 60 ∧
    0 ≤ (runStaticAnalysis env.setupThrows env.eslintStdout).scoreAdd ∧
    (runStaticAnalysis env.setupThrows env.eslintStdout).scoreAdd ≤ 25 ∧
    0 ≤ (runDependencyScanning env.depThrows env.pkgJsonExists env.auditStdout).scoreAdd ∧
    (runDependencyScanning env.depThrows env.pkgJsonExists env.auditStdout).scoreAdd ≤ 15 := by
  obtain ⟨p0, p60, np, hp⟩ := pattern_scoreAdd_bounds env.category env.profile
  obtain ⟨s0, s25, ns, hs⟩ := static_scoreAdd_bounds env.setupThrows env.eslintStdout
  obtain ⟨d0, d15, nd, hd⟩ :=
    dep_scoreAdd_bounds env.depThrows env.pkgJsonExists env.auditStdout
  cases herr : env.unexpectedErr with
  | none =>
      have hsum : (validateChallengeSolution env).score =
          (runPatternValidation env.category env.profile).scoreAdd +
          (runStaticAnalysis env.setupThrows env.eslintStdout).scoreAdd +
          (runDependencyScanning env.depThrows env.pkgJsonExists env.auditStdout).scoreAdd := by
        simp [validateChallengeSolution, stageOuts, herr]
        ring
      refine ⟨?_, ?_, ⟨2 * np + ns + 2 * nd, ?_⟩, fun _ => hsum,
        p0, p60, s0, s25, d0, d15⟩
      · rw [hsum]; linarith
      · rw [hsum]; linarith
      · rw [hsum]
        have hexp : 2 * ((runPatternValidation env.category env.profile).scoreAdd +
            (runStaticAnalysis env.setupThrows env.eslintStdout).scoreAdd +
            (runDependencyScanning env.depThrows env.pkgJsonExists env.auditStdout).scoreAdd) =
            2 * (runPatternValidation env.category env.profile).scoreAdd +
            2 * (runStaticAnalysis env.setupThrows env.eslintStdout).scoreAdd +
            2 * (runDependencyScanning env.depThrows env.pkgJsonExists env.auditStdout).scoreAdd := by
          ring
        rw [hexp, hp, hs, hd]
        push_cast
        ring
  | some k =>
      fin_cases k
      · have hsc : (validateChallengeSolution env).score = 0 := by
          simp [validateChallengeSolution, stageOuts, herr]
        refine ⟨by rw [hsc], by rw [hsc]; norm_num, ⟨0, by rw [hsc]; norm_num⟩,
          fun h => absurd h (by simp), p0, p60, s0, s25, d0, d15⟩
      · have hsc : (validateChallengeSolution env).score =
            (runPatternValidation env.category env.profile).scoreAdd := by
          simp [validateChallengeSolution, stageOuts, herr]
        refine ⟨by rw [hsc]; exact p0, by rw [hsc]; linarith, ⟨2 * np, ?_⟩,
          fun h => absurd h (by simp), p0, p60, s0, s25, d0, d15⟩
        rw [hsc, show (2 : ℚ) * (runPatternValidation env.category env.profile).scoreAdd =
          2 * (runPatternValidation env.category env.profile).scoreAdd from rfl, hp]
        push_cast
        ring
      · have hsc : (validateChallengeSolution env).score =
            (runPatternValidation env.category env.profile).scoreAdd +
            (runStaticAnalysis env.setupThrows env.eslintStdout).scoreAdd := by
          simp [validateChallengeSolution, stageOuts, herr]
        refine ⟨by rw [hsc]; linarith, by rw [hsc]; linarith, ⟨2 * np + ns, ?_⟩,
          fun h => absurd h (by simp), p0, p60, s0, s25, d0, d15⟩
        rw [hsc]
        have hexp : 2 * ((runPatternValidation env.category env.profile).scoreAdd +
            (runStaticAnalysis env.setupThrows env.eslintStdout).scoreAdd) =
            2 * (runPatternValidation env.category env.profile).scoreAdd +
            2 * (runStaticAnalysis env.setupThrows env.eslintStdout).scoreAdd := by
          ring
        rw [hexp, hp, hs]
        push_cast
        ring

/-- A concrete run in which the static-analysis stage degrades: a clean
submission (no pattern matches at all) with a throwing ESLint setup and
no package.json.  Pattern 42 + static 12.5 + dependency 15 = 69.5. -/
def envHalf : ValidationEnv :=
  { category := "sql-injection"
    profile := ⟨[0, 0, 0, 0], [0, 0, 0, 0]⟩
    setupThrows := true
    eslintStdout := none
    depThrows := false
    pkgJsonExists := false
    auditStdout := none
    unexpectedErr := none
    errMessage := "" }

/-- Witness for C4 at the concrete run `envHalf`. -/
theorem validation_score_bounds_witness :
    0 ≤ (validateChallengeSolution envHalf).score ∧
    (validateChallengeSolution envHalf).score =
      (runPatternValidation envHalf.category envHalf.profile).scoreAdd +
      (runStaticAnalysis envHalf.setupThrows envHalf.eslintStdout).scoreAdd +
      (runDependencyScanning envHalf.depThrows envHalf.pkgJsonExists
        envHalf.auditStdout).scoreAdd := by
  obtain ⟨h0, -, -, hsum, -⟩ := validation_score_bounds envHalf
  exact ⟨h0, hsum rfl⟩

/-- Counterexample to C4 as stated: on the run `envHalf` the returned
score is 69.5 — not an integer (its reduced denominator is 2). -/
theorem score_not_integer_counterexample :
    (validateChallengeSolution envHalf).score = 139 / 2 ∧
    ((validateChallengeSolution envHalf).score).den ≠ 1 := by
  have hl : lookupRules "sql-injection" = some sqlInjectionRules := by decide
  have hpat : (runPatternValidation "sql-injection" ⟨[0, 0, 0, 0], [0, 0, 0, 0]⟩).scoreAdd = 42 := by
    norm_num [runPatternValidation, hl]
  have hstat : (runStaticAnalysis true none).scoreAdd = 25 / 2 := by
    norm_num [runStaticAnalysis]
  have hdep : (runDependencyScanning false false none).scoreAdd = 15 := by
    norm_num [runDependencyScanning]
  have hsum : (validateChallengeSolution envHalf).score =
      ((stageOuts envHalf).map StageOut.scoreAdd).sum := rfl
  have hlist : stageOuts envHalf =
      [runPatternValidation "sql-injection" ⟨[0, 0, 0, 0], [0, 0, 0, 0]⟩,
       runStaticAnalysis true none, runDependencyScanning false false none] := rfl
  have hscore : (validateChallengeSolution envHalf).score = 139 / 2 := by
    rw [hsum, hlist]
    simp only [List.map_cons, List.map_nil, List.sum_cons, List.sum_nil]
    rw [hpat, hstat, hdep]
    norm_num
  refine ⟨hscore, ?_⟩
  rw [hscore]
  intro hden
  have h1 : (((139 / 2 : ℚ).num : ℚ)) = 139 / 2 := (Rat.den_eq_one_iff _).mp hden
  have h2 : (2 : ℚ) * ((139 / 2 : ℚ).num : ℚ) = 139 := by rw [h1]; ring
  have h3 : 2 * (139 / 2 : ℚ).num = 139 := by exact_mod_cast h2
  omega

/-! ## C8 -/

/-- C8: whenever some stage throws an unexpected error, the
orchestrator does not propagate it: `passed` stays `false`, `grade`
stays unassigned, the score is exactly the partial sum accumulated by
the stages that completed before the error, and the checks are those
accumulated so far followed by the single failing check named
"Validation Error". -/
theorem orchestrator_error_handling (env : ValidationEnv) (k : Fin 3)
    (h : env.unexpectedErr = some k) :
    (validateChallengeSolution env).passed = false ∧
    (validateChallengeSolution env).grade = none ∧
    (validateChallengeSolution env).score =
      (((stageOuts env).take k.val).map StageOut.scoreAdd).sum ∧
    (validateChallengeSolution env).checks =
      ((stageOuts env).take k.val).flatMap StageOut.checks ++
        [validationErrorCheck env.errMessage] ∧
    (validationErrorCheck env.errMessage).name = "Validation Error" ∧
    (validationErrorCheck env.errMessage).passed = false := by
  refine ⟨?_, ?_, ?_, ?_, rfl, rfl⟩ <;>
    simp [validateChallengeSolution, h]

/-- A concrete run in which the second stage (static analysis) throws
unexpectedly after pattern validation scored 60. -/
def envErr : ValidationEnv :=
  { category := "auth"
    profile := ⟨[0, 0, 0, 0, 0], [1, 0, 0, 0, 0]⟩
    setupThrows := false
    eslintStdout := none
    depThrows := false
    pkgJsonExists := false
    auditStdout := none
    unexpectedErr := some 1
    errMessage := "boom" }

/-- Witness for C8 at the concrete run `envErr`. -/
theorem orchestrator_error_handling_witness :
    (validateChallengeSolution envErr).passed = false ∧
    (validateChallengeSolution envErr).grade = none ∧
    (validateChallengeSolution envErr).score =
      (((stageOuts envErr).take (1 : Fin 3).val).map StageOut.scoreAdd).sum ∧
    (validateChallengeSolution envErr).checks =
      ((stageOuts envErr).take (1 : Fin 3).val).flatMap StageOut.checks ++
        [validationErrorCheck envErr.errMessage] ∧
    (validationErrorCheck envErr.errMessage).name = "Validation Error" ∧
    (validationErrorCheck envErr.errMessage).passed = false :=
  orchestrator_error_handling envErr 1 rfl

/-! ## C5 -/

